import Mathlib

/-!
Shallow embedding of the argon branch-lifecycle core
(`core/branch_manager.py`, `core/docker_utils.py`, `core/s3_utils.py`,
`argonctl/core/s3_utils.py`, and the CLI `time-travel` command), together
with theorems settling the specification claims about it.

External effects (S3, the docker daemon, subprocess exit codes, the clock)
are supplied by explicit environment records; a raised Python exception is
an `Except.error`, a structured return value is an `Except.ok`.  The
metadata catalog module (`core/metadata.py`) is not present in the source
tree; its CRUD operations are modelled from the spec where noted.
-/

set_option linter.unusedVariables false

deriving instance DecidableEq for Except

/-- A row of the catalog's `branches` table (spec section 3 / section 4.3). -/
structure BranchRec where
  branch_name : String
  project_name : String
  port : Nat
  container_id : String
  s3_path : String
  status : String
  last_active : Nat
deriving DecidableEq, Repr

/-- A row of the catalog's `branch_versions` table.  `version_id` is an
`Option` because `snapshot_branch_to_s3` records whatever
`upload_to_s3` returned, which may be `None`. -/
structure VersionRec where
  branch_name : String
  project_name : String
  s3_path : String
  version_id : Option String
  timestamp : Nat
deriving DecidableEq, Repr

/-- The world state threaded through operations: the catalog's two tables
plus the set of live containers (container id, bound host port). -/
structure World where
  branches : List BranchRec
  versions : List VersionRec
  live : List (String × Nat)
deriving DecidableEq, Repr

/-- Outcomes of the docker-facing steps of `start_mongo_container`:
whether the client connects, whether `containers.run` returns a container
(or raises), and the exit code / stderr of the `mongorestore` step. -/
structure DockerEnv where
  connectOk : Bool
  runResult : Except String String
  restoreExit : Nat
  restoreStderr : String
deriving DecidableEq, Repr

/-- External outcomes for one lifecycle-manager operation: the random port
draw, the clock, whether the S3 download succeeds, the docker steps of
`start_mongo_container`, the docker-client connection made directly by
`suspend_branch`/`delete_branch`, the container liveness answer, the
mongodump exit status, the size of the copied-out dump file (`none` =
absent), and the result of `upload_to_s3` (`Except.error` = raised,
`Except.ok v` = returned version id `v`, possibly `none`). -/
structure Env where
  port : Nat
  now : Nat
  downloadOk : Bool
  docker : DockerEnv
  mgrConnectOk : Bool
  containerLive : Bool
  dumpExitOk : Bool
  dumpFileSize : Option Nat
  uploadResult : Except String (Option String)
deriving DecidableEq, Repr

/-- Predicate matching a `branches` row by (branch_name, project_name). -/
def branchMatches (n p : String) (r : BranchRec) : Bool :=
  decide (r.branch_name = n ∧ r.project_name = p)

/-- Modelled from the spec: `metadata.get_branch` — look up the branch
record keyed by (branch_name, project_name) (`core/metadata.py` is absent
from the source tree; spec section 4.3 prescribes CRUD over branch
records keyed as in section 3). -/
def get_branch (w : World) (n p : String) : Option BranchRec :=
  w.branches.find? (branchMatches n p)

/-- Modelled from the spec: `metadata.add_branch` — durably write a new
branch record (spec section 4.4: "write a new Branch record"). -/
def add_branch (w : World) (n p : String) (port : Nat) (cid s3p st : String)
    (now : Nat) : World :=
  { w with branches := w.branches ++ [⟨n, p, port, cid, s3p, st, now⟩] }

/-- Modelled from the spec: `metadata.remove_branch` — delete the branch
record(s) keyed by (branch_name, project_name). -/
def remove_branch (w : World) (n p : String) : World :=
  { w with branches := w.branches.filter (fun r => !(branchMatches n p r)) }

/-- Modelled from the spec: `metadata.update_branch_status` — set the
status field of the branch record(s) keyed by (branch_name, project_name). -/
def update_branch_status (w : World) (n p st : String) : World :=
  { w with branches :=
      w.branches.map (fun r =>
        if branchMatches n p r then { r with status := st } else r) }

/-- Modelled from the spec: `metadata.add_branch_version` — append a row
to the version-history table (spec section 4.3). -/
def add_branch_version (w : World) (n p s3p : String) (vid : Option String)
    (ts : Nat) : World :=
  { w with versions := w.versions ++ [⟨n, p, s3p, vid, ts⟩] }

/-- `docker_utils.start_mongo_container`: connect to docker (raising when
both socket paths fail), run the mongo container publishing `port`, copy
the dump in, run `mongorestore`; a non-zero restore exit status is only
printed, and the container id is returned regardless. -/
def start_mongo_container (env : DockerEnv) (branch_name dump_path : String)
    (port : Nat) (w : World) : Except String String × World :=
  if env.connectOk then
    match env.runResult with
    | .error e => (.error e, w)
    | .ok cid => (.ok cid, { w with live := w.live ++ [(cid, port)] })
  else (.error "Could not connect to Docker", w)

/-- `docker_utils.stop_mongo_container`: stop and remove the container;
every exception is swallowed, so it never raises. -/
def stop_mongo_container (cid : String) (w : World) : World :=
  { w with live := w.live.filter (fun c => !(decide (c.1 = cid))) }

/-- `branch_manager.create_branch`: pick a random port, derive the s3
path, download the base dump (latest, or a pinned version id), start the
container, and only then register the branch in the catalog with
status 'running'. -/
def create_branch (env : Env) (branch_name project_name : String)
    (base_s3_path : Option String) (version_id : Option String)
    (w : World) : Except String BranchRec × World :=
  let port := env.port
  let s3_path := "branches/" ++ project_name ++ "/" ++ branch_name ++ "/dump.archive"
  if env.downloadOk then
    match start_mongo_container env.docker branch_name "dump.archive" port w with
    | (.error e, w1) => (.error e, w1)
    | (.ok cid, w1) =>
        (.ok ⟨branch_name, project_name, port, cid, s3_path, "running", env.now⟩,
         add_branch w1 branch_name project_name port cid s3_path "running" env.now)
  else (.error "download_from_s3 failed", w)

/-- `branch_manager.snapshot_branch_to_s3`: run mongodump (exit status
only printed), docker-cp the archive out, and, iff the local dump file
exists with non-zero size, upload it (propagating a raised upload error)
and record a version row with whatever version id the upload returned. -/
def snapshot_branch_to_s3 (env : Env) (branch_name project_name : String)
    (container_id s3_path : String) (w : World) :
    Except String Unit × World :=
  match env.dumpFileSize with
  | none => (.ok (), w)
  | some sz =>
      if 0 < sz then
        match env.uploadResult with
        | .error e => (.error e, w)
        | .ok vid =>
            (.ok (), add_branch_version w branch_name project_name s3_path vid env.now)
      else (.ok (), w)

/-- `branch_manager.delete_branch`: return False when the record is
absent; otherwise connect to docker (raising when unreachable), check
container liveness (lookup failures count as not running), snapshot and
stop when running (propagating a raised snapshot error), then remove the
catalog record and return True. -/
def delete_branch (env : Env) (branch_name project_name : String)
    (w : World) : Except String Bool × World :=
  match get_branch w branch_name project_name with
  | none => (.ok false, w)
  | some branch =>
      if env.mgrConnectOk then
        if env.containerLive then
          match snapshot_branch_to_s3 env branch_name project_name
              branch.container_id branch.s3_path w with
          | (.error e, w1) => (.error e, w1)
          | (.ok _, w1) =>
              (.ok true,
               remove_branch (stop_mongo_container branch.container_id w1)
                 branch_name project_name)
        else (.ok true, remove_branch w branch_name project_name)
      else (.error "Could not connect to Docker", w)

/-- `branch_manager.suspend_branch`: return False when the record is
absent or already 'stopped'; otherwise connect to docker (raising when
unreachable), snapshot and stop when the container is live (propagating a
raised snapshot error), then mark the branch 'stopped' and return True. -/
def suspend_branch (env : Env) (branch_name project_name : String)
    (w : World) : Except String Bool × World :=
  match get_branch w branch_name project_name with
  | none => (.ok false, w)
  | some branch =>
      if branch.status = "stopped" then (.ok false, w)
      else if env.mgrConnectOk then
        if env.containerLive then
          match snapshot_branch_to_s3 env branch_name project_name
              branch.container_id branch.s3_path w with
          | (.error e, w1) => (.error e, w1)
          | (.ok _, w1) =>
              (.ok true,
               update_branch_status (stop_mongo_container branch.container_id w1)
                 branch_name project_name "stopped")
        else (.ok true, update_branch_status w branch_name project_name "stopped")
      else (.error "Could not connect to Docker", w)

/-- The field update performed by `resume_branch`'s SQL UPDATE:
`SET container_id = ?, status = 'running', last_active = ?`. -/
def apply_resume_update (cid : String) (now : Nat) (r : BranchRec) : BranchRec :=
  { r with container_id := cid, status := "running", last_active := now }

/-- The SQL UPDATE of `resume_branch`, applied to every row matching
`WHERE branch_name = ? AND project_name = ?`. -/
def update_resume (w : World) (n p cid : String) (now : Nat) : World :=
  { w with branches :=
      w.branches.map (fun r =>
        if branchMatches n p r then apply_resume_update cid now r else r) }

/-- The try-block body of `branch_manager.resume_branch`: download the
snapshot (raising on failure), start the container on the branch's stored
port, then update container_id, status and last_active in the catalog. -/
def resume_body (env : Env) (branch_name project_name : String)
    (branch : BranchRec) (w : World) :
    Except String (Bool × String) × World :=
  if env.downloadOk then
    match start_mongo_container env.docker branch_name "dump.archive"
        branch.port w with
    | (.error e, w1) => (.error e, w1)
    | (.ok cid, w1) =>
        (.ok (true, "Branch resumed from S3."),
         update_resume w1 branch_name project_name cid env.now)
  else (.error "download_from_s3 failed", w)

/-- `branch_manager.resume_branch`: structured (False, msg) when the
record is absent or already running; otherwise run the body under a
catch-all handler that converts any raised exception into a structured
(False, msg) result. -/
def resume_branch (env : Env) (branch_name project_name : String)
    (w : World) : Except String (Bool × String) × World :=
  match get_branch w branch_name project_name with
  | none => (.ok (false, "Branch not found."), w)
  | some branch =>
      if branch.status = "running" then
        (.ok (false, "Branch is already running."), w)
      else
        match resume_body env branch_name project_name branch w with
        | (.ok r, w1) => (.ok r, w1)
        | (.error e, w1) =>
            (.ok (false, "Failed to resume branch from S3: " ++ e), w1)

/-- Pick the candidate row with the maximal timestamp (the SQL
`ORDER BY timestamp DESC LIMIT 1`). -/
def bestVersion : List VersionRec → Option VersionRec
  | [] => none
  | v :: rest =>
      match bestVersion rest with
      | none => some v
      | some b => if b.timestamp ≤ v.timestamp then some v else some b

/-- Modelled from the spec: `metadata.get_branch_version_by_time`
(`core/metadata.py` is absent from the source tree; spec section 4.3:
"get most recent version at or before timestamp T for (branch, project)"). -/
def get_branch_version_by_time (versions : List VersionRec)
    (branch project : String) (ts : Nat) : Option VersionRec :=
  bestVersion (versions.filter (fun v =>
    decide (v.branch_name = branch ∧ v.project_name = project ∧ v.timestamp ≤ ts)))

/-- The CLI `time-travel` command (`cli/main.py`): resolve the source
branch's version at or before the timestamp; exit with an error when none
exists; otherwise create the new branch from that version's s3 path and
version id. -/
def time_travel (env : Env) (name project from_branch : String) (ts : Nat)
    (w : World) : Except String BranchRec × World :=
  match get_branch_version_by_time w.versions from_branch project ts with
  | none => (.error "No version found", w)
  | some vinfo => create_branch env name project (some vinfo.s3_path) vinfo.version_id w

/-- `core/s3_utils.upload_to_s3`: open the file and `put_object`,
returning `resp.get('VersionId')` — it performs no emptiness check and no
readback verification, and ignores the content size entirely. -/
def upload_to_s3_core (putResult : Except String (Option String))
    (fileSize : Nat) : Except String (Option String) :=
  putResult

/-- External outcomes for `argonctl/core/s3_utils.upload_to_s3`. -/
structure UploadEnv where
  fileExists : Bool
  fileSize : Nat
  connOk : Bool
  putResult : Except String (Option String)
  headResult : Except String Nat
deriving DecidableEq, Repr

/-- `argonctl/core/s3_utils.upload_to_s3`: reject missing arguments, a
missing file, an empty file, a failed connection test; `put_object`;
reject a missing version id; head-object readback; reject a size
mismatch; only then return the version id.  Every exception class is
caught and converted to `none`. -/
def upload_to_s3_argonctl (env : UploadEnv)
    (localPathGiven s3PathGiven : Bool) : Option String :=
  if !localPathGiven || !s3PathGiven then none
  else if !env.fileExists then none
  else if env.fileSize = 0 then none
  else if !env.connOk then none
  else
    match env.putResult with
    | .error _ => none
    | .ok none => none
    | .ok (some vid) =>
        match env.headResult with
        | .error _ => none
        | .ok len => if len ≠ env.fileSize then none else some vid

/-- One lifecycle-manager operation together with its environment, for
reasoning about operation sequences. -/
inductive LifecycleOp where
  | createOp (env : Env) (n p : String) (base : Option String) (vid : Option String)
  | suspendOp (env : Env) (n p : String)
  | resumeOp (env : Env) (n p : String)
  | deleteOp (env : Env) (n p : String)
deriving DecidableEq, Repr

/-- The world reached after one operation (errors included: the world at
the raise point is kept). -/
def stepWorld (w : World) : LifecycleOp → World
  | .createOp env n p b v => (create_branch env n p b v w).2
  | .suspendOp env n p => (suspend_branch env n p w).2
  | .resumeOp env n p => (resume_branch env n p w).2
  | .deleteOp env n p => (delete_branch env n p w).2

/-- The world reached after a sequence of operations. -/
def runOps (w : World) (ops : List LifecycleOp) : World :=
  ops.foldl stepWorld w

/-- The ports currently assigned in the catalog. -/
def catalogPorts (w : World) : List Nat :=
  w.branches.map (fun r => r.port)

/-- A create step allocates a port not currently assigned to any catalog
record; other operations are unconstrained. -/
def freshPortOk (w : World) : LifecycleOp → Bool
  | .createOp env _ _ _ _ => !(decide (env.port ∈ catalogPorts w))
  | _ => true

/-- Every create in the sequence draws a fresh port relative to the world
it executes in. -/
def safeTrace : World → List LifecycleOp → Bool
  | _, [] => true
  | w, op :: rest => freshPortOk w op && safeTrace (stepWorld w op) rest

/-- Is this `Except` a structured return (as opposed to a raised
exception)? -/
def resultOk {α : Type} : Except String α → Bool
  | .ok _ => true
  | .error _ => false

/-! ### Shared concrete inputs for witnesses and counterexamples -/

/-- An environment in which every external step succeeds. -/
def envAllOk : Env :=
  { port := 30000, now := 5, downloadOk := true,
    docker := { connectOk := true, runResult := .ok "c1", restoreExit := 0,
                restoreStderr := "" },
    mgrConnectOk := true, containerLive := true, dumpExitOk := true,
    dumpFileSize := some 7, uploadResult := .ok (some "v1") }

/-- The empty world. -/
def emptyWorld : World := ⟨[], [], []⟩

/-- A world holding one running branch "b" of project "p". -/
def wOneRunning : World :=
  ⟨[⟨"b", "p", 30000, "c1", "branches/p/b/dump.archive", "running", 0⟩],
   [], [("c1", 30000)]⟩

/-- A world holding one stopped branch "b" of project "p". -/
def wOneStopped : World :=
  ⟨[⟨"b", "p", 30000, "c1", "branches/p/b/dump.archive", "stopped", 0⟩],
   [], []⟩

/-! ### Helper lemmas -/

theorem branchMatches_apply_resume (n p cid : String) (now : Nat)
    (r : BranchRec) :
    branchMatches n p (apply_resume_update cid now r) = branchMatches n p r := rfl

theorem get_branch_live_irrelevant (w : World) (l : List (String × Nat))
    (n p : String) :
    get_branch { w with live := l } n p = get_branch w n p := rfl

theorem get_branch_update_resume (w : World) (n p cid : String) (now : Nat) :
    get_branch (update_resume w n p cid now) n p =
      (get_branch w n p).map (fun r =>
        if branchMatches n p r then apply_resume_update cid now r else r) := by
  unfold get_branch update_resume
  rw [List.find?_map]
  have h : (branchMatches n p ∘ fun r =>
      if branchMatches n p r then apply_resume_update cid now r else r) =
      branchMatches n p := by
    funext r
    by_cases hm : branchMatches n p r
    · simp [Function.comp, hm, branchMatches_apply_resume]
    · simp [Function.comp, hm]
  rw [h]

/-! ### Claim C1 -/

/-- C1: if `create_branch` fails at any step (download from the store or
compute start), no branch record is written to the catalog and the world
is untouched; on success the catalog write is the final step, performed
only after `start_mongo_container` has returned a compute handle, and it
appends exactly the new branch record built from that handle. -/
theorem create_catalog_write_is_last (env : Env) (n p : String)
    (b v : Option String) (w : World) :
    (∀ e, (create_branch env n p b v w).1 = Except.error e →
      (create_branch env n p b v w).2 = w) ∧
    (∀ res, (create_branch env n p b v w).1 = Except.ok res →
      ∃ cid,
        (start_mongo_container env.docker n "dump.archive" env.port w).1 =
          Except.ok cid ∧
        (create_branch env n p b v w).2.branches =
          w.branches ++
            [⟨n, p, env.port, cid,
              "branches/" ++ p ++ "/" ++ n ++ "/dump.archive", "running",
              env.now⟩]) := by
  unfold create_branch start_mongo_container add_branch
  cases hd : env.downloadOk <;>
    cases hc : env.docker.connectOk <;>
      cases hr : env.docker.runResult <;> simp

/-- C1 witness: with a failing store download, `create_branch` raises and
the world is unchanged; the catalog gains no record. -/
theorem create_catalog_write_is_last_witness :
    (create_branch { envAllOk with downloadOk := false } "b" "p" none none
        emptyWorld).1 = Except.error "download_from_s3 failed" ∧
    (create_branch { envAllOk with downloadOk := false } "b" "p" none none
        emptyWorld).2 = emptyWorld :=
  ⟨rfl,
   (create_catalog_write_is_last { envAllOk with downloadOk := false }
      "b" "p" none none emptyWorld).1 "download_from_s3 failed" rfl⟩

/-! ### Claim C3 -/

/-- C3: `resume_branch` on an absent record returns the structured
"Branch not found." failure with the world untouched; on a running record
it returns "Branch is already running." with the world untouched (no
compute provisioned); and after any successful resume, a second resume
returns "Branch is already running." and leaves the world unchanged, so
two sequential resumes never provision compute twice. -/
theorem resume_idempotent (env1 env2 : Env) (n p : String) (w : World) :
    (get_branch w n p = none →
      resume_branch env1 n p w = (Except.ok (false, "Branch not found."), w)) ∧
    (∀ br, get_branch w n p = some br → br.status = "running" →
      resume_branch env1 n p w =
        (Except.ok (false, "Branch is already running."), w)) ∧
    (∀ m w', resume_branch env1 n p w = (Except.ok (true, m), w') →
      resume_branch env2 n p w' =
        (Except.ok (false, "Branch is already running."), w')) := by
  refine ⟨?_, ?_, ?_⟩
  · intro hnone
    unfold resume_branch
    rw [hnone]
  · intro br hbr hst
    unfold resume_branch
    rw [hbr]
    simp [hst]
  · intro m w' hok
    unfold resume_branch at hok
    split at hok
    · simp at hok
    next br heq =>
      split at hok
      · simp at hok
      next hst =>
        split at hok
        next r w1 hbody =>
          have hr : r = (true, m) ∧ w1 = w' := by
            refine ⟨?_, ?_⟩ <;> cases hok <;> rfl
          unfold resume_body at hbody
          split at hbody
          case isFalse => simp at hbody
          case isTrue hd =>
            split at hbody
            next e w2 hstart => simp at hbody
            next cid w2 hstart =>
              unfold start_mongo_container at hstart
              split at hstart
              case isFalse => simp at hstart
              case isTrue hc =>
                split at hstart
                next e hrun => simp at hstart
                next cid' hrun =>
                  have hcid : cid' = cid ∧
                      w2 = { w with live := w.live ++ [(cid', br.port)] } := by
                    refine ⟨?_, ?_⟩ <;> cases hstart <;> rfl
                  have hw' : w' = update_resume w2 n p cid env1.now := by
                    have h1 := hbody
                    cases h1
                    exact hr.2.symm
                  have hmatch : branchMatches n p br = true :=
                    List.find?_some heq
                  have hgw2 : get_branch w2 n p = some br := by
                    rw [hcid.2, get_branch_live_irrelevant, heq]
                  have hget : get_branch w' n p =
                      some (apply_resume_update cid env1.now br) := by
                    rw [hw', get_branch_update_resume, hgw2]
                    simp [hmatch]
                  unfold resume_branch
                  rw [hget]
                  simp [apply_resume_update]
        next e w1 hbody => simp at hok

/-- C3 witness: resuming the absent branch "ghost" fails with "Branch not
found." and no side effects; resuming the stopped branch "b" succeeds and
a second resume then reports "Branch is already running." without
touching the world again. -/
theorem resume_idempotent_witness :
    resume_branch envAllOk "ghost" "p" wOneStopped =
      (Except.ok (false, "Branch not found."), wOneStopped) ∧
    resume_branch envAllOk "b" "p"
        (resume_branch envAllOk "b" "p" wOneStopped).2 =
      (Except.ok (false, "Branch is already running."),
       (resume_branch envAllOk "b" "p" wOneStopped).2) :=
  ⟨(resume_idempotent envAllOk envAllOk "ghost" "p" wOneStopped).1 rfl,
   (resume_idempotent envAllOk envAllOk "b" "p" wOneStopped).2.2
     "Branch resumed from S3."
     (resume_branch envAllOk "b" "p" wOneStopped).2 rfl⟩

/-! ### Claim C5 -/

/-- C5 counterexample: `create_branch` does not return a structured
failure when the store download raises — the exception propagates to the
caller, refuting the claim that every lifecycle operation returns a
structured result for every store/provisioner error. -/
theorem lifecycle_structured_results_counterexample :
    resultOk (create_branch { envAllOk with downloadOk := false } "b" "p"
      none none emptyWorld).1 = false := rfl

/-- C5 amended: `resume_branch` returns a structured (ok, message) result
for every environment outcome — its catch-all handler converts every
raised store/provisioner error into a structured failure — whereas
create, suspend and delete propagate raised exceptions. -/
theorem resume_always_structured (env : Env) (n p : String) (w : World) :
    resultOk (resume_branch env n p w).1 = true := by
  unfold resume_branch
  split
  · rfl
  · split
    · rfl
    · split
      · rfl
      · rfl

/-! ### Claim C2 -/

/-- C2 counterexample: with the provisioner (docker) connection
unavailable, `delete_branch` raises before removing anything and the
branch record survives in the catalog — deletion does not make forward
progress for that error class. -/
theorem delete_forward_progress_counterexample :
    (delete_branch { envAllOk with mgrConnectOk := false } "b" "p"
        wOneRunning).1 = Except.error "Could not connect to Docker" ∧
    (delete_branch { envAllOk with mgrConnectOk := false } "b" "p"
        wOneRunning).2.branches = wOneRunning.branches := ⟨rfl, rfl⟩

/-- C2 amended: for an existing branch, `delete_branch` removes the
catalog record and reports success whenever the docker connection is
available and the store upload does not raise — in particular despite a
dead or missing container, a failed dump (missing or empty dump file), or
an upload returning no version id; but a provisioner-connection failure
or a raised store error aborts deletion with the record intact. -/
theorem delete_removes_record_when_connected (env : Env) (n p : String)
    (w : World) (br : BranchRec) (hbr : get_branch w n p = some br)
    (hconn : env.mgrConnectOk = true)
    (hup : resultOk env.uploadResult = true) :
    (delete_branch env n p w).1 = Except.ok true ∧
    (delete_branch env n p w).2.branches =
      w.branches.filter (fun r => !(branchMatches n p r)) := by
  unfold delete_branch
  rw [hbr, hconn]
  cases hl : env.containerLive with
  | false => simp [remove_branch]
  | true =>
    simp only [if_true]
    unfold snapshot_branch_to_s3
    cases hd : env.dumpFileSize with
    | none => simp [remove_branch, stop_mongo_container]
    | some sz =>
      by_cases hsz : 0 < sz
      · simp only [hsz, if_true]
        cases hu : env.uploadResult with
        | error e => rw [hu] at hup; simp [resultOk] at hup
        | ok vid =>
            simp [remove_branch, stop_mongo_container, add_branch_version]
      · simp [hsz, remove_branch, stop_mongo_container]

/-- C2 witness: deleting the running branch "b" with a live container, a
failed dump (empty dump file) and a connected docker client succeeds and
removes the record. -/
theorem delete_removes_record_when_connected_witness :
    (delete_branch { envAllOk with dumpFileSize := some 0 } "b" "p"
        wOneRunning).1 = Except.ok true ∧
    (delete_branch { envAllOk with dumpFileSize := some 0 } "b" "p"
        wOneRunning).2.branches =
      wOneRunning.branches.filter (fun r => !(branchMatches "b" "p" r)) :=
  delete_removes_record_when_connected
    { envAllOk with dumpFileSize := some 0 } "b" "p" wOneRunning
    ⟨"b", "p", 30000, "c1", "branches/p/b/dump.archive", "running", 0⟩
    rfl rfl rfl

/-! ### Claim C10 -/

/-- C10 counterexample: suspending a running branch with a live container
whose dump file is produced but whose upload returns no version id still
records a version row in the catalog (with an empty version id),
contradicting the claim that no version row is recorded when the
snapshot step fails. -/
theorem suspend_no_version_row_counterexample :
    (suspend_branch { envAllOk with uploadResult := Except.ok none } "b" "p"
        wOneRunning).1 = Except.ok true ∧
    (suspend_branch { envAllOk with uploadResult := Except.ok none } "b" "p"
        wOneRunning).2.versions =
      [⟨"b", "p", "branches/p/b/dump.archive", none, 5⟩] := ⟨rfl, rfl⟩

/-- C10 amended: when suspend runs on a running branch with a live
container and the snapshot step fails, suspend still stops the container,
marks the branch stopped, and returns success with the failure not
surfaced; when the dump file is missing or empty no version row is
recorded, but when the upload merely returns no version id a version row
with an empty version id is still recorded. -/
theorem suspend_snapshot_failure_behavior (env : Env) (n p : String)
    (w : World) (br : BranchRec) (hbr : get_branch w n p = some br)
    (hst : br.status = "running") (hconn : env.mgrConnectOk = true)
    (hlive : env.containerLive = true) :
    ((env.dumpFileSize = none ∨ env.dumpFileSize = some 0) →
      suspend_branch env n p w =
        (Except.ok true,
         update_branch_status (stop_mongo_container br.container_id w)
           n p "stopped")) ∧
    (∀ sz, env.dumpFileSize = some sz → 0 < sz →
      env.uploadResult = Except.ok none →
      suspend_branch env n p w =
        (Except.ok true,
         update_branch_status (stop_mongo_container br.container_id
             (add_branch_version w n p br.s3_path none env.now))
           n p "stopped")) := by
  have hne : ¬ br.status = "stopped" := by rw [hst]; decide
  constructor
  · intro hdump
    unfold suspend_branch
    rw [hbr]
    simp only [hne, if_false, hconn, hlive, if_true]
    unfold snapshot_branch_to_s3
    cases hdump with
    | inl h => rw [h]
    | inr h => rw [h]; simp
  · intro sz hsz hpos hup
    unfold suspend_branch
    rw [hbr]
    simp only [hne, if_false, hconn, hlive, if_true]
    unfold snapshot_branch_to_s3
    rw [hsz, hup]
    simp [hpos]

/-- C10 witness: with a live container, a missing dump file and a running
branch, suspend succeeds, stops the container and marks the branch
stopped without recording any version row. -/
theorem suspend_snapshot_failure_behavior_witness :
    suspend_branch { envAllOk with dumpFileSize := none } "b" "p"
        wOneRunning =
      (Except.ok true,
       update_branch_status (stop_mongo_container "c1" wOneRunning)
         "b" "p" "stopped") :=
  (suspend_snapshot_failure_behavior
      { envAllOk with dumpFileSize := none } "b" "p" wOneRunning
      ⟨"b", "p", 30000, "c1", "branches/p/b/dump.archive", "running", 0⟩
      rfl rfl rfl rfl).1 (Or.inl rfl)

/-! ### Claim C8 -/

/-- C8: a successful resume of a stopped branch starts compute on the
branch's previously assigned port and performs exactly the SQL update of
container id, status and last_active on the matching catalog rows; the
version table is untouched, non-matching rows are untouched, and the
update preserves branch name, project, port and snapshot key. -/
theorem resume_frame_effect (env : Env) (n p : String) (w : World)
    (br : BranchRec) (cid : String) (hbr : get_branch w n p = some br)
    (hst : br.status = "stopped") (hdl : env.downloadOk = true)
    (hc : env.docker.connectOk = true)
    (hr : env.docker.runResult = Except.ok cid) :
    resume_branch env n p w =
      (Except.ok (true, "Branch resumed from S3."),
       { branches := w.branches.map (fun r =>
           if branchMatches n p r then apply_resume_update cid env.now r
           else r),
         versions := w.versions,
         live := w.live ++ [(cid, br.port)] }) ∧
    (∀ r : BranchRec,
      (apply_resume_update cid env.now r).branch_name = r.branch_name ∧
      (apply_resume_update cid env.now r).project_name = r.project_name ∧
      (apply_resume_update cid env.now r).port = r.port ∧
      (apply_resume_update cid env.now r).s3_path = r.s3_path ∧
      (apply_resume_update cid env.now r).container_id = cid ∧
      (apply_resume_update cid env.now r).status = "running" ∧
      (apply_resume_update cid env.now r).last_active = env.now) := by
  have hne : ¬ br.status = "running" := by rw [hst]; decide
  constructor
  · unfold resume_branch
    rw [hbr]
    simp only [hne, if_false]
    unfold resume_body start_mongo_container
    rw [hdl, hc, hr]
    simp [update_resume]
  · intro r
    exact ⟨rfl, rfl, rfl, rfl, rfl, rfl, rfl⟩

/-- C8 witness: resuming the stopped branch "b" with a fresh container
"c2" updates exactly the handle, status and last_active of its record,
keeps its port 30000, and starts compute on that port. -/
theorem resume_frame_effect_witness :
    resume_branch { envAllOk with docker :=
        { envAllOk.docker with runResult := Except.ok "c2" } } "b" "p"
        wOneStopped =
      (Except.ok (true, "Branch resumed from S3."),
       { branches := wOneStopped.branches.map (fun r =>
           if branchMatches "b" "p" r then apply_resume_update "c2" 5 r
           else r),
         versions := wOneStopped.versions,
         live := wOneStopped.live ++ [("c2", 30000)] }) :=
  (resume_frame_effect
      { envAllOk with docker :=
          { envAllOk.docker with runResult := Except.ok "c2" } }
      "b" "p" wOneStopped
      ⟨"b", "p", 30000, "c1", "branches/p/b/dump.archive", "stopped", 0⟩
      "c2" rfl rfl rfl rfl rfl).1

/-! ### Claim C7 -/

/-- C7 counterexample: with the docker daemon reachable and the container
started, a non-zero `mongorestore` exit status does not make
`start_mongo_container` fail — the error is only printed and the handle
of the degraded instance is returned anyway. -/
theorem start_restore_failure_counterexample :
    (DockerEnv.mk true (Except.ok "c1") 1 "restore failed").restoreExit ≠ 0 ∧
    (start_mongo_container (DockerEnv.mk true (Except.ok "c1") 1 "restore failed")
        "b" "dump.archive" 30000 emptyWorld).1 = Except.ok "c1" :=
  ⟨by decide, rfl⟩

/-- C7 amended: `start_mongo_container` returns the container handle
whenever the docker connection succeeds and the container runs,
regardless of the restore step's exit status (a restore failure is only
logged); it raises only when the docker connection or the container run
itself fails. -/
theorem start_returns_handle_despite_restore (env : DockerEnv)
    (n d : String) (port : Nat) (w : World) :
    (∀ cid, env.connectOk = true → env.runResult = Except.ok cid →
      start_mongo_container env n d port w =
        (Except.ok cid, { w with live := w.live ++ [(cid, port)] })) ∧
    (∀ e, (start_mongo_container env n d port w).1 = Except.error e →
      env.connectOk = false ∨ env.runResult = Except.error e) := by
  constructor
  · intro cid hc hr
    unfold start_mongo_container
    rw [hc, hr]
    simp
  · intro e he
    unfold start_mongo_container at he
    cases hc : env.connectOk with
    | false => exact Or.inl rfl
    | true =>
      rw [hc] at he
      cases hr : env.runResult with
      | error e2 =>
          rw [hr] at he
          simp at he
          rw [he]
          exact Or.inr rfl
      | ok cid => rw [hr] at he; simp at he

/-- C7 witness: with restore exiting 2, start still hands back container
"c9" and registers it as live. -/
theorem start_returns_handle_despite_restore_witness :
    start_mongo_container (DockerEnv.mk true (Except.ok "c9") 2 "boom")
        "b" "dump.archive" 31000 emptyWorld =
      (Except.ok "c9",
       { emptyWorld with live := emptyWorld.live ++ [("c9", 31000)] }) :=
  (start_returns_handle_despite_restore
      (DockerEnv.mk true (Except.ok "c9") 2 "boom") "b" "dump.archive"
      31000 emptyWorld).1 "c9" rfl rfl

/-! ### Claim C6 -/

/-- C6 counterexample: the store put actually used by the lifecycle
manager (`core/s3_utils.upload_to_s3`) performs neither check — an upload
of zero-length content returns whatever version id the backing service
reports, instead of failing. -/
theorem store_put_checks_counterexample :
    upload_to_s3_core (Except.ok (some "v1")) 0 = Except.ok (some "v1") := rfl

/-- C6 amended: the verifying store put (`argonctl/core/s3_utils.
upload_to_s3`) fails (returns no version id) on zero-length content and
on a readback size mismatch, and returns a version id only when the
content is non-empty, the service returned a version id, and the readback
size matches; the plain `core/s3_utils` put used by the branch manager
performs neither check. -/
theorem argonctl_upload_verification (env : UploadEnv) (lp sp : Bool) :
    (env.fileSize = 0 → upload_to_s3_argonctl env lp sp = none) ∧
    (∀ len, env.headResult = Except.ok len → len ≠ env.fileSize →
      upload_to_s3_argonctl env lp sp = none) ∧
    (∀ vid, upload_to_s3_argonctl env lp sp = some vid →
      env.fileSize ≠ 0 ∧ env.putResult = Except.ok (some vid) ∧
      env.headResult = Except.ok env.fileSize) := by
  unfold upload_to_s3_argonctl
  refine ⟨?_, ?_, ?_⟩
  · intro h0
    rw [h0]
    simp
  · intro len hh hne
    cases hlp : (!lp || !sp) with
    | true => simp
    | false =>
      simp only [hlp, Bool.false_eq_true, if_false]
      cases hfe : env.fileExists with
      | false => simp
      | true =>
        simp only [hfe, Bool.not_true, Bool.false_eq_true, if_false]
        by_cases h0 : env.fileSize = 0
        · simp [h0]
        · simp only [h0, if_false]
          cases hco : env.connOk with
          | false => simp
          | true =>
            simp only [hco, Bool.not_true, Bool.false_eq_true, if_false]
            cases hput : env.putResult with
            | error e => simp
            | ok vid =>
              cases vid with
              | none => simp
              | some v =>
                rw [hh]
                simp [hne]
  · intro vid h
    by_cases hlp : (!lp || !sp) = true
    · rw [if_pos hlp] at h; simp at h
    · rw [if_neg hlp] at h
      cases hfe : env.fileExists with
      | false => rw [hfe] at h; simp at h
      | true =>
        rw [hfe] at h
        simp only [Bool.not_true, Bool.false_eq_true, if_false] at h
        by_cases h0 : env.fileSize = 0
        · rw [if_pos h0] at h; simp at h
        · rw [if_neg h0] at h
          cases hco : env.connOk with
          | false => rw [hco] at h; simp at h
          | true =>
            rw [hco] at h
            simp only [Bool.not_true, Bool.false_eq_true, if_false] at h
            cases hput : env.putResult with
            | error e => rw [hput] at h; simp at h
            | ok v =>
              rw [hput] at h
              cases v with
              | none => simp at h
              | some v0 =>
                cases hhd : env.headResult with
                | error e => rw [hhd] at h; simp at h
                | ok len =>
                  rw [hhd] at h
                  by_cases hlen : len = env.fileSize
                  · simp [hlen] at h
                    refine ⟨h0, ?_, ?_⟩
                    · rw [h]
                    · rw [hlen]
                  · simp [hlen] at h

/-- C6 witness: a 4-byte upload whose readback reports 4 bytes and whose
put returns version id "v7" succeeds with "v7"; the same environment with
a zero-length file fails. -/
theorem argonctl_upload_verification_witness :
    upload_to_s3_argonctl
        (UploadEnv.mk true 4 true (Except.ok (some "v7")) (Except.ok 4))
        true true = some "v7" ∧
    upload_to_s3_argonctl
        (UploadEnv.mk true 0 true (Except.ok (some "v7")) (Except.ok 0))
        true true = none :=
  ⟨rfl,
   (argonctl_upload_verification
      (UploadEnv.mk true 0 true (Except.ok (some "v7")) (Except.ok 0))
      true true).1 rfl⟩

/-! ### Claim C4 -/

theorem bestVersion_eq_none {l : List VersionRec} :
    bestVersion l = none ↔ l = [] := by
  induction l with
  | nil => simp [bestVersion]
  | cons v rest ih =>
    simp only [bestVersion]
    constructor
    · intro h
      split at h
      · simp at h
      · split at h <;> simp at h
    · intro h
      simp at h

theorem bestVersion_mem {l : List VersionRec} {b : VersionRec}
    (h : bestVersion l = some b) : b ∈ l := by
  induction l generalizing b with
  | nil => simp [bestVersion] at h
  | cons v rest ih =>
    simp only [bestVersion] at h
    split at h
    · cases h
      exact List.mem_cons_self v rest
    next b0 hb =>
      split at h
      · cases h
        exact List.mem_cons_self v rest
      · cases h
        exact List.mem_cons_of_mem v (ih hb)

theorem bestVersion_max {l : List VersionRec} {b : VersionRec}
    (h : bestVersion l = some b) :
    ∀ v ∈ l, v.timestamp ≤ b.timestamp := by
  induction l generalizing b with
  | nil => simp [bestVersion] at h
  | cons v rest ih =>
    intro x hx
    simp only [bestVersion] at h
    split at h
    next hb =>
      cases h
      have hrest : rest = [] := bestVersion_eq_none.mp hb
      subst hrest
      rcases List.mem_cons.mp hx with h1 | h1
      · rw [h1]
      · simp at h1
    next b0 hb =>
      split at h
      next hle =>
        cases h
        rcases List.mem_cons.mp hx with h1 | h1
        · rw [h1]
        · exact Nat.le_trans (ih hb x h1) hle
      next hle =>
        cases h
        rcases List.mem_cons.mp hx with h1 | h1
        · rw [h1]
          exact Nat.le_of_lt (Nat.lt_of_not_le hle)
        · exact ih hb x h1

/-- C4: the CLI time-travel resolves the source branch's most recent
version at or before the requested timestamp (the resolved version is a
recorded version of that branch, its creation time never exceeds the
request, it dominates every other at-or-before version, and an exact tie
is picked), fails when no at-or-before version exists (which happens
exactly when no recorded version of the branch is at or before the
timestamp), and otherwise invokes `create_branch` for the new branch with
the resolved snapshot key and version id. -/
theorem time_travel_resolution (env : Env) (n p src : String) (ts : Nat)
    (w : World) :
    (get_branch_version_by_time w.versions src p ts = none ↔
      ∀ v ∈ w.versions, v.branch_name = src → v.project_name = p →
        ¬ v.timestamp ≤ ts) ∧
    (get_branch_version_by_time w.versions src p ts = none →
      time_travel env n p src ts w = (Except.error "No version found", w)) ∧
    (∀ vi, get_branch_version_by_time w.versions src p ts = some vi →
      vi ∈ w.versions ∧ vi.branch_name = src ∧ vi.project_name = p ∧
      vi.timestamp ≤ ts ∧
      (∀ v ∈ w.versions, v.branch_name = src → v.project_name = p →
        v.timestamp ≤ ts → v.timestamp ≤ vi.timestamp) ∧
      (∀ v ∈ w.versions, v.branch_name = src → v.project_name = p →
        v.timestamp = ts → vi.timestamp = ts) ∧
      time_travel env n p src ts w =
        create_branch env n p (some vi.s3_path) vi.version_id w) := by
  refine ⟨?_, ?_, ?_⟩
  · unfold get_branch_version_by_time
    rw [bestVersion_eq_none, List.filter_eq_nil_iff]
    constructor
    · intro h v hv hb hp hts
      exact h v hv (by simp [hb, hp, hts])
    · intro h v hv hcond
      simp only [decide_eq_true_eq] at hcond
      exact h v hv hcond.1 hcond.2.1 hcond.2.2
  · intro hnone
    unfold time_travel
    rw [hnone]
  · intro vi hvi
    have hmem := bestVersion_mem hvi
    have hmax := bestVersion_max hvi
    have hfil := List.mem_filter.mp hmem
    have hcond := of_decide_eq_true hfil.2
    have hdom : ∀ v ∈ w.versions, v.branch_name = src → v.project_name = p →
        v.timestamp ≤ ts → v.timestamp ≤ vi.timestamp := by
      intro v hv hb hp hts
      exact hmax v (List.mem_filter.mpr ⟨hv, by simp [hb, hp, hts]⟩)
    refine ⟨hfil.1, hcond.1, hcond.2.1, hcond.2.2, hdom, ?_, ?_⟩
    · intro v hv hb hp hts
      exact Nat.le_antisymm hcond.2.2 (hts ▸ hdom v hv hb hp (Nat.le_of_eq hts))
    · unfold time_travel
      rw [hvi]

/-- C4 witness: with versions of branch "src" recorded at times 3 and 7,
a request at time 5 resolves the version at time 3 (never the one at 7)
and invokes create with its snapshot key and version id; a request at the
exact time 7 picks the version at 7. -/
theorem time_travel_resolution_witness :
    (get_branch_version_by_time
        [⟨"src", "p", "branches/p/src/dump.archive", some "vA", 3⟩,
         ⟨"src", "p", "branches/p/src/dump.archive", some "vB", 7⟩]
        "src" "p" 5 =
      some ⟨"src", "p", "branches/p/src/dump.archive", some "vA", 3⟩) ∧
    (⟨"src", "p", "branches/p/src/dump.archive", some "vA", 3⟩ :
        VersionRec).timestamp ≤ 5 ∧
    time_travel envAllOk "new" "p" "src" 5
        ⟨[], [⟨"src", "p", "branches/p/src/dump.archive", some "vA", 3⟩,
              ⟨"src", "p", "branches/p/src/dump.archive", some "vB", 7⟩], []⟩ =
      create_branch envAllOk "new" "p"
        (some "branches/p/src/dump.archive") (some "vA")
        ⟨[], [⟨"src", "p", "branches/p/src/dump.archive", some "vA", 3⟩,
              ⟨"src", "p", "branches/p/src/dump.archive", some "vB", 7⟩], []⟩ ∧
    (get_branch_version_by_time
        [⟨"src", "p", "branches/p/src/dump.archive", some "vA", 3⟩,
         ⟨"src", "p", "branches/p/src/dump.archive", some "vB", 7⟩]
        "src" "p" 7 =
      some ⟨"src", "p", "branches/p/src/dump.archive", some "vB", 7⟩) :=
  ⟨rfl,
   ((time_travel_resolution envAllOk "new" "p" "src" 5
      ⟨[], [⟨"src", "p", "branches/p/src/dump.archive", some "vA", 3⟩,
            ⟨"src", "p", "branches/p/src/dump.archive", some "vB", 7⟩], []⟩).2.2
      ⟨"src", "p", "branches/p/src/dump.archive", some "vA", 3⟩ rfl).2.2.2.1,
   ((time_travel_resolution envAllOk "new" "p" "src" 5
      ⟨[], [⟨"src", "p", "branches/p/src/dump.archive", some "vA", 3⟩,
            ⟨"src", "p", "branches/p/src/dump.archive", some "vB", 7⟩], []⟩).2.2
      ⟨"src", "p", "branches/p/src/dump.archive", some "vA", 3⟩ rfl).2.2.2.2.2.2,
   rfl⟩

/-! ### Claim C9 -/

theorem snapshot_snd_branches (env : Env) (n p c s : String) (w : World) :
    (snapshot_branch_to_s3 env n p c s w).2.branches = w.branches := by
  unfold snapshot_branch_to_s3
  cases hd : env.dumpFileSize with
  | none => rfl
  | some sz =>
    by_cases hsz : 0 < sz
    · simp only [hsz, if_true]
      cases hu : env.uploadResult with
      | error e => rfl
      | ok vid => simp [add_branch_version]
    · simp [hsz]

theorem catalogPorts_update_status (w : World) (n p st : String) :
    catalogPorts (update_branch_status w n p st) = catalogPorts w := by
  unfold catalogPorts update_branch_status
  simp only [List.map_map]
  apply List.map_congr_left
  intro r hr
  by_cases hm : branchMatches n p r <;> simp [hm, Function.comp]

theorem catalogPorts_update_resume (w : World) (n p cid : String) (now : Nat) :
    catalogPorts (update_resume w n p cid now) = catalogPorts w := by
  unfold catalogPorts update_resume
  simp only [List.map_map]
  apply List.map_congr_left
  intro r hr
  by_cases hm : branchMatches n p r <;>
    simp [hm, Function.comp, apply_resume_update]

theorem catalogPorts_stop (c : String) (w : World) :
    catalogPorts (stop_mongo_container c w) = catalogPorts w := rfl

theorem suspend_catalogPorts (env : Env) (n p : String) (w : World) :
    catalogPorts ((suspend_branch env n p w).2) = catalogPorts w := by
  unfold suspend_branch
  split
  · rfl
  next br hgb =>
    split
    · rfl
    · split
      · split
        · split
          next e w1 heq =>
            show catalogPorts w1 = catalogPorts w
            have h1 := snapshot_snd_branches env n p br.container_id br.s3_path w
            rw [heq] at h1
            simp at h1
            unfold catalogPorts
            rw [h1]
          next u w1 heq =>
            show catalogPorts (update_branch_status
              (stop_mongo_container br.container_id w1) n p "stopped") =
              catalogPorts w
            have h1 := snapshot_snd_branches env n p br.container_id br.s3_path w
            rw [heq] at h1
            simp at h1
            rw [catalogPorts_update_status, catalogPorts_stop]
            unfold catalogPorts
            rw [h1]
        · rw [catalogPorts_update_status]
      · rfl

theorem resume_catalogPorts (env : Env) (n p : String) (w : World) :
    catalogPorts ((resume_branch env n p w).2) = catalogPorts w := by
  unfold resume_branch
  split
  · rfl
  next br hgb =>
    split
    · rfl
    · have hbody : ∀ r w1, resume_body env n p br w = (r, w1) →
          catalogPorts w1 = catalogPorts w := by
        intro r w1 heq
        unfold resume_body at heq
        split at heq
        · split at heq
          next e w2 hstart =>
            unfold start_mongo_container at hstart
            split at hstart
            · split at hstart
              next e2 hrun =>
                cases hstart
                cases heq
                rfl
              next cid hrun => simp at hstart
            · cases hstart
              cases heq
              rfl
          next cid w2 hstart =>
            unfold start_mongo_container at hstart
            split at hstart
            · split at hstart
              next e2 hrun => simp at hstart
              next cid2 hrun =>
                cases hstart
                cases heq
                rw [catalogPorts_update_resume]
                rfl
            · simp at hstart
        · cases heq
          rfl
      split
      next r w1 heq => exact hbody (Except.ok r) w1 heq
      next e w1 heq => exact hbody (Except.error e) w1 heq

theorem remove_catalogPorts_sublist (w : World) (n p : String) :
    List.Sublist (catalogPorts (remove_branch w n p)) (catalogPorts w) :=
  List.Sublist.map _ (List.filter_sublist _)

theorem delete_catalogPorts_sublist (env : Env) (n p : String) (w : World) :
    List.Sublist (catalogPorts ((delete_branch env n p w).2))
      (catalogPorts w) := by
  unfold delete_branch
  split
  · exact List.Sublist.refl _
  next br hgb =>
    split
    · split
      · split
        next e w1 heq =>
          show List.Sublist (catalogPorts w1) (catalogPorts w)
          have h1 := snapshot_snd_branches env n p br.container_id br.s3_path w
          rw [heq] at h1
          simp at h1
          have h2 : catalogPorts w1 = catalogPorts w := by
            unfold catalogPorts
            rw [h1]
          rw [h2]
        next u w1 heq =>
          show List.Sublist (catalogPorts (remove_branch
            (stop_mongo_container br.container_id w1) n p)) (catalogPorts w)
          have h1 := snapshot_snd_branches env n p br.container_id br.s3_path w
          rw [heq] at h1
          simp at h1
          have h2 : catalogPorts (stop_mongo_container br.container_id w1) =
              catalogPorts w := by
            rw [catalogPorts_stop]
            unfold catalogPorts
            rw [h1]
          have h3 := remove_catalogPorts_sublist
            (stop_mongo_container br.container_id w1) n p
          rw [h2] at h3
          exact h3
      · exact remove_catalogPorts_sublist w n p
    · exact List.Sublist.refl _

theorem create_catalogPorts (env : Env) (n p : String)
    (b v : Option String) (w : World) :
    catalogPorts ((create_branch env n p b v w).2) = catalogPorts w ∨
    catalogPorts ((create_branch env n p b v w).2) =
      catalogPorts w ++ [env.port] := by
  unfold create_branch start_mongo_container add_branch
  cases hd : env.downloadOk <;>
    cases hc : env.docker.connectOk <;>
      cases hr : env.docker.runResult <;>
        simp [catalogPorts]

theorem stepWorld_ports_nodup (w : World) (op : LifecycleOp)
    (hn : (catalogPorts w).Nodup) (hf : freshPortOk w op = true) :
    (catalogPorts (stepWorld w op)).Nodup := by
  cases op with
  | createOp env n p b v =>
    unfold stepWorld
    rcases create_catalogPorts env n p b v w with h | h
    · rw [h]; exact hn
    · rw [h]
      have hmem : env.port ∉ catalogPorts w := by
        unfold freshPortOk at hf
        simpa using hf
      rw [← List.concat_eq_append]
      exact List.Nodup.concat hmem hn
  | suspendOp env n p =>
    unfold stepWorld
    rw [suspend_catalogPorts]
    exact hn
  | resumeOp env n p =>
    unfold stepWorld
    rw [resume_catalogPorts]
    exact hn
  | deleteOp env n p =>
    exact List.Nodup.sublist (delete_catalogPorts_sublist env n p w) hn

theorem runOps_ports_nodup (ops : List LifecycleOp) :
    ∀ w, (catalogPorts w).Nodup → safeTrace w ops = true →
      (catalogPorts (runOps w ops)).Nodup := by
  induction ops with
  | nil => intro w hn _; exact hn
  | cons op rest ih =>
    intro w hn hs
    unfold safeTrace at hs
    rw [Bool.and_eq_true] at hs
    exact ih (stepWorld w op) (stepWorld_ports_nodup w op hn hs.1) hs.2

/-- C9 amended: starting from a catalog whose assigned ports are pairwise
distinct, after any sequence of create/suspend/resume/delete operations
in which every create draws a port not currently assigned in the catalog,
no two distinct branches with status running share a port.  (The code's
random allocator does not guarantee the freshness side condition, and
without it the invariant fails — see the counterexample.) -/
theorem port_uniqueness_running (w : World) (ops : List LifecycleOp)
    (hn : (catalogPorts w).Nodup) (hs : safeTrace w ops = true) :
    ∀ r1 ∈ (runOps w ops).branches, ∀ r2 ∈ (runOps w ops).branches,
      r1.status = "running" → r2.status = "running" → r1 ≠ r2 →
      r1.port ≠ r2.port := by
  intro r1 h1 r2 h2 _ _ hne hport
  have hnod := runOps_ports_nodup ops w hn hs
  unfold catalogPorts at hnod
  exact hne (List.inj_on_of_nodup_map hnod h1 h2 hport)

/-- C9 counterexample: two creates that draw the same random port both
succeed and both register a running branch on port 30000 — the claim that
no reachable state has two running branches sharing a port is false. -/
theorem port_uniqueness_counterexample :
    ((runOps emptyWorld
        [LifecycleOp.createOp envAllOk "a" "p" none none,
         LifecycleOp.createOp envAllOk "b" "p" none none]).branches.map
      (fun r => (r.branch_name, r.status, r.port))) =
    [("a", "running", 30000), ("b", "running", 30000)] := rfl

/-- C9 witness: a four-step trace (create "a" on 30000, create "b" on
30001, suspend "a", resume "a") satisfies the freshness side condition
and ends with no two distinct running branches sharing a port. -/
theorem port_uniqueness_running_witness :
    (catalogPorts emptyWorld).Nodup ∧
    safeTrace emptyWorld
      [LifecycleOp.createOp envAllOk "a" "p" none none,
       LifecycleOp.createOp { envAllOk with port := 30001 } "b" "p" none none,
       LifecycleOp.suspendOp envAllOk "a" "p",
       LifecycleOp.resumeOp envAllOk "a" "p"] = true ∧
    (∀ r1 ∈ (runOps emptyWorld
        [LifecycleOp.createOp envAllOk "a" "p" none none,
         LifecycleOp.createOp { envAllOk with port := 30001 } "b" "p" none none,
         LifecycleOp.suspendOp envAllOk "a" "p",
         LifecycleOp.resumeOp envAllOk "a" "p"]).branches,
      ∀ r2 ∈ (runOps emptyWorld
        [LifecycleOp.createOp envAllOk "a" "p" none none,
         LifecycleOp.createOp { envAllOk with port := 30001 } "b" "p" none none,
         LifecycleOp.suspendOp envAllOk "a" "p",
         LifecycleOp.resumeOp envAllOk "a" "p"]).branches,
      r1.status = "running" → r2.status = "running" → r1 ≠ r2 →
      r1.port ≠ r2.port) :=
  ⟨List.nodup_nil, by decide,
   port_uniqueness_running emptyWorld
     [LifecycleOp.createOp envAllOk "a" "p" none none,
      LifecycleOp.createOp { envAllOk with port := 30001 } "b" "p" none none,
      LifecycleOp.suspendOp envAllOk "a" "p",
      LifecycleOp.resumeOp envAllOk "a" "p"]
     List.nodup_nil (by decide)⟩
